import Mathlib

/-!
Verification of the movie-discovery web application (src/app.py) against its
natural-language specification.  The Python routes are shallowly embedded as
pure Lean functions: the external metadata API and the text-generation client
become explicit oracle parameters, the cookie-backed session becomes an
explicit state value threaded through the watchlist operations, and each
route returns both the list of upstream calls it issued and its response, so
that claims about "no upstream call" and "exactly one fallback call" are
directly statable.
-/

namespace MovieSite

/-! ## Fixed lookup tables (app.py lines 33-84) -/

/-- The GENRES map: genre display name to numeric TMDB genre id. -/
def GENRES : List (String × Nat) :=
  [("Action", 28), ("Comedy", 35), ("Horror", 27), ("Romance", 10749),
   ("Sci-Fi", 878), ("Animation", 16), ("Thriller", 53), ("Drama", 18),
   ("Fantasy", 14), ("Crime", 80), ("Documentary", 99), ("Adventure", 12),
   ("Mystery", 9648), ("Music", 10402), ("History", 36), ("War", 10752),
   ("Western", 37), ("Family", 10751)]

/-- The MOOD_GENRES map: mood name to list of genre display names. -/
def MOOD_GENRES : List (String × List String) :=
  [("happy", ["Comedy", "Animation", "Family"]),
   ("sad", ["Drama", "Romance"]),
   ("excited", ["Action", "Adventure", "Sci-Fi"]),
   ("scared", ["Horror", "Thriller"]),
   ("romantic", ["Romance", "Drama"]),
   ("bored", ["Action", "Crime", "Mystery"]),
   ("nostalgic", ["Animation", "Family", "History"]),
   ("curious", ["Documentary", "Mystery", "Sci-Fi"]),
   ("relaxed", ["Comedy", "Music", "Family"]),
   ("angry", ["Action", "Thriller", "Crime"])]

/-- The LANGUAGES map: language display name to ISO 639-1 code. -/
def LANGUAGES : List (String × String) :=
  [("English", "en"), ("Hindi", "hi"), ("Spanish", "es"), ("French", "fr"),
   ("Korean", "ko"), ("Japanese", "ja"), ("Italian", "it"), ("German", "de"),
   ("Chinese", "zh"), ("Portuguese", "pt")]

/-- Python truthiness of `GENRES.get(name)`: falsy when the key is absent
(None) or when the looked-up value is the integer 0.  Both genre routes
guard with `if not genre_id`. -/
def pyFalsyNat (o : Option Nat) : Bool := (o.getD 0) == 0

/-! ## Watchlist data model (app.py lines 775-850)

A full movie record fetched from upstream carries the fields the add route
reads; vote averages are carried opaquely (no claim computes with them). -/

/-- Relevant fields of an upstream full movie record, as read by
add_watchlist: id, title, poster path, vote average, release date,
overview, genres (list of id-name pairs). -/
structure WMovie where
  id : Nat
  title : String
  poster_path : String
  vote_average : Int
  release_date : String
  overview : String
  genres : List (Nat × String)
deriving DecidableEq

/-- A stored watchlist entry: the MovieSummary-shaped subset plus genre ids
that add_watchlist extracts (app.py lines 787-795). -/
structure WEntry where
  id : Nat
  title : String
  poster_path : String
  vote_average : Int
  release_date : String
  overview : String
  genre_ids : List Nat
deriving DecidableEq

/-- The per-browser session state: the two parallel watchlist lists. -/
structure SessionState where
  watchlist_ids : List Nat
  watchlist_movies : List WEntry
deriving DecidableEq

/-- A fresh session: both lists empty (app.py lines 777-779). -/
def emptySession : SessionState := ⟨[], []⟩

/-- The entry extraction performed by add_watchlist (app.py lines 787-795). -/
def watchlistEntryOf (m : WMovie) : WEntry :=
  { id := m.id
    title := m.title
    poster_path := m.poster_path
    vote_average := m.vote_average
    release_date := m.release_date
    overview := m.overview
    genre_ids := m.genres.map Prod.fst }

/-- add_watchlist (app.py lines 775-798).  The upstream fetch of
`/movie/movie_id` is the oracle `fetch`; a response that is empty or lacks
an id field is `none` (the Python guard `if movie and id in movie`).
If the id is already present nothing happens; otherwise on a successful
fetch the id and the extracted entry are appended to the two lists. -/
def add_watchlist (fetch : Nat → Option WMovie) (movie_id : Nat)
    (s : SessionState) : SessionState :=
  if movie_id ∈ s.watchlist_ids then s
  else
    match fetch movie_id with
    | none => s
    | some movie =>
        { watchlist_ids := s.watchlist_ids ++ [movie_id]
          watchlist_movies := s.watchlist_movies ++ [watchlistEntryOf movie] }

/-- remove_watchlist (app.py lines 804-816): locate the first index of the
id in the id list; if found, remove that index from both lists. -/
def remove_watchlist (movie_id : Nat) (s : SessionState) : SessionState :=
  match s.watchlist_ids.indexOf? movie_id with
  | none => s
  | some idx =>
      { watchlist_ids := s.watchlist_ids.eraseIdx idx
        watchlist_movies := s.watchlist_movies.eraseIdx idx }

/-- clear_watchlist (app.py lines 845-850): empty both lists. -/
def clear_watchlist (_s : SessionState) : SessionState := ⟨[], []⟩

/-- One watchlist operation, as named in the spec. -/
inductive WatchOp where
  | add (movieId : Nat)
  | remove (movieId : Nat)
  | clear
deriving DecidableEq

/-- Apply one watchlist operation to the session. -/
def applyWatchOp (fetch : Nat → Option WMovie) (s : SessionState) :
    WatchOp → SessionState
  | .add i => add_watchlist fetch i s
  | .remove i => remove_watchlist i s
  | .clear => clear_watchlist s

/-- Run a sequence of watchlist operations starting from the empty session. -/
def runWatchOps (fetch : Nat → Option WMovie) (ops : List WatchOp) :
    SessionState :=
  ops.foldl (applyWatchOp fetch) emptySession

/-- The lockstep invariant, packaged as one equation: mapping the id field
over the entry list yields exactly the id list. -/
def alignedIds (s : SessionState) : Prop :=
  s.watchlist_movies.map WEntry.id = s.watchlist_ids

/-! ## Lockstep invariant lemmas -/

theorem map_eraseIdx_comm {α β : Type} (f : α → β) :
    ∀ (l : List α) (i : Nat), (l.eraseIdx i).map f = (l.map f).eraseIdx i := by
  intro l
  induction l with
  | nil => intro i; cases i <;> rfl
  | cons a t ih =>
      intro i
      cases i with
      | zero => rfl
      | succ j => simp [List.eraseIdx, ih j]

theorem alignedIds_empty : alignedIds emptySession := rfl

theorem alignedIds_add (fetch : Nat → Option WMovie)
    (hfetch : ∀ i m, fetch i = some m → m.id = i)
    (movie_id : Nat) (s : SessionState) (h : alignedIds s) :
    alignedIds (add_watchlist fetch movie_id s) := by
  unfold add_watchlist
  split
  · exact h
  · cases hf : fetch movie_id with
    | none => simpa [hf] using h
    | some movie =>
        have hid : movie.id = movie_id := hfetch _ _ hf
        simp only [hf, alignedIds, List.map_append, List.map_cons,
          List.map_nil, watchlistEntryOf]
        rw [h, hid]

theorem alignedIds_remove (movie_id : Nat) (s : SessionState)
    (h : alignedIds s) : alignedIds (remove_watchlist movie_id s) := by
  unfold remove_watchlist
  cases hidx : s.watchlist_ids.indexOf? movie_id with
  | none => exact h
  | some idx =>
      simp only [alignedIds]
      rw [← h, map_eraseIdx_comm]

theorem alignedIds_clear (s : SessionState) :
    alignedIds (clear_watchlist s) := rfl

theorem alignedIds_runWatchOps (fetch : Nat → Option WMovie)
    (hfetch : ∀ i m, fetch i = some m → m.id = i) (ops : List WatchOp) :
    alignedIds (runWatchOps fetch ops) := by
  suffices h : ∀ s, alignedIds s → alignedIds (ops.foldl (applyWatchOp fetch) s) from
    h emptySession alignedIds_empty
  induction ops with
  | nil => exact fun s hs => hs
  | cons op rest ih =>
      intro s hs
      refine ih _ ?_
      cases op with
      | add i => exact alignedIds_add fetch hfetch i s hs
      | remove i => exact alignedIds_remove i s hs
      | clear => exact alignedIds_clear s

/-! ## Concrete fetch oracle used by witnesses -/

/-- A concrete movie record with id 5. -/
def witMovie5 : WMovie :=
  { id := 5, title := "Alpha", poster_path := "p5", vote_average := 7
    release_date := "2001-01-01", overview := "a", genres := [(28, "Action")] }

/-- A concrete movie record with id 9. -/
def witMovie9 : WMovie :=
  { id := 9, title := "Beta", poster_path := "p9", vote_average := 6
    release_date := "1999-05-05", overview := "b", genres := [(35, "Comedy")] }

/-- A concrete fetch oracle knowing exactly the movies with ids 5 and 9. -/
def witFetch : Nat → Option WMovie := fun i =>
  if i = 5 then some witMovie5 else if i = 9 then some witMovie9 else none

theorem witFetch_honest : ∀ (i : Nat) (m : WMovie), witFetch i = some m → m.id = i := by
  intro i m h
  by_cases h5 : i = 5
  · subst h5
    simp [witFetch] at h
    subst h
    decide
  · by_cases h9 : i = 9
    · subst h9
      simp [witFetch] at h
      subst h
      decide
    · simp [witFetch, h5, h9] at h

/-- C1: starting from the empty session, every sequence of watchlist add,
remove and clear operations leaves the watchlist id list and the watchlist
entry list with the same length, and the entry at each position carries the
id at the same position of the id list; each operation (modelled as a pure
state transformer) updates the two lists atomically.  The upstream oracle is
assumed to answer a fetch for id i with either nothing or a record whose id
field is i, which is how the real metadata API answers a movie lookup. -/
theorem parallel_watchlists_stay_aligned (fetch : Nat → Option WMovie)
    (hfetch : ∀ i m, fetch i = some m → m.id = i) (ops : List WatchOp) :
    (runWatchOps fetch ops).watchlist_ids.length =
      (runWatchOps fetch ops).watchlist_movies.length ∧
    ∀ (i : Nat) (h1 : i < (runWatchOps fetch ops).watchlist_ids.length)
      (h2 : i < (runWatchOps fetch ops).watchlist_movies.length),
      ((runWatchOps fetch ops).watchlist_movies.get ⟨i, h2⟩).id =
        (runWatchOps fetch ops).watchlist_ids.get ⟨i, h1⟩ := by
  have h := alignedIds_runWatchOps fetch hfetch ops
  unfold alignedIds at h
  constructor
  · rw [← h, List.length_map]
  · intro i h1 h2
    have h1m : i < ((runWatchOps fetch ops).watchlist_movies.map WEntry.id).length := by
      rw [h]; exact h1
    have hg : (runWatchOps fetch ops).watchlist_ids.get ⟨i, h1⟩ =
        ((runWatchOps fetch ops).watchlist_movies.map WEntry.id).get ⟨i, h1m⟩ := by
      simp only [List.get_eq_getElem]
      exact (List.getElem_of_eq h.symm h1).symm ▸ rfl
    rw [hg]
    simp [List.get_eq_getElem, List.getElem_map]

/-- C1 witness: a concrete operation sequence against the concrete oracle. -/
theorem parallel_watchlists_stay_aligned_witness :
    (runWatchOps witFetch [WatchOp.add 5, WatchOp.add 9, WatchOp.remove 5,
        WatchOp.add 7, WatchOp.clear, WatchOp.add 9]).watchlist_ids.length =
      (runWatchOps witFetch [WatchOp.add 5, WatchOp.add 9, WatchOp.remove 5,
        WatchOp.add 7, WatchOp.clear, WatchOp.add 9]).watchlist_movies.length :=
  (parallel_watchlists_stay_aligned witFetch witFetch_honest
    [WatchOp.add 5, WatchOp.add 9, WatchOp.remove 5,
     WatchOp.add 7, WatchOp.clear, WatchOp.add 9]).1

/-- C4: watchlist add is idempotent.  Adding an id already present leaves
the session unchanged; add of the same id twice equals a single add; and
when the fetch succeeds for a fresh id, after the second add the id list
holds exactly one entry for that id and the length is unchanged by the
second call. -/
theorem add_watchlist_idempotent (fetch : Nat → Option WMovie)
    (s : SessionState) (movie_id : Nat) :
    (movie_id ∈ s.watchlist_ids → add_watchlist fetch movie_id s = s) ∧
    add_watchlist fetch movie_id (add_watchlist fetch movie_id s) =
      add_watchlist fetch movie_id s ∧
    (∀ m, fetch movie_id = some m → movie_id ∉ s.watchlist_ids →
      ((add_watchlist fetch movie_id
          (add_watchlist fetch movie_id s)).watchlist_ids.count movie_id = 1 ∧
       (add_watchlist fetch movie_id
          (add_watchlist fetch movie_id s)).watchlist_ids.length =
         (add_watchlist fetch movie_id s).watchlist_ids.length)) := by
  have hnoop : ∀ t : SessionState, movie_id ∈ t.watchlist_ids →
      add_watchlist fetch movie_id t = t := by
    intro t ht
    unfold add_watchlist
    rw [if_pos ht]
  refine ⟨hnoop s, ?_, ?_⟩
  · by_cases h : movie_id ∈ s.watchlist_ids
    · rw [hnoop s h]
      exact hnoop s h
    · cases hf : fetch movie_id with
      | none =>
          have hs : add_watchlist fetch movie_id s = s := by
            unfold add_watchlist
            rw [if_neg h, hf]
          rw [hs]
          exact hs
      | some m =>
          have hs : add_watchlist fetch movie_id s =
              ⟨s.watchlist_ids ++ [movie_id],
               s.watchlist_movies ++ [watchlistEntryOf m]⟩ := by
            unfold add_watchlist
            rw [if_neg h, hf]
          rw [hs]
          apply hnoop
          simp
  · intro m hf h
    have hs : add_watchlist fetch movie_id s =
        ⟨s.watchlist_ids ++ [movie_id],
         s.watchlist_movies ++ [watchlistEntryOf m]⟩ := by
      unfold add_watchlist
      rw [if_neg h, hf]
    have hmem : movie_id ∈ (add_watchlist fetch movie_id s).watchlist_ids := by
      rw [hs]; simp
    rw [hnoop _ hmem, hs]
    constructor
    · simp [List.count_append, List.count_eq_zero.mpr h]
    · rfl

/-- C4 witness: concrete session states and the concrete oracle. -/
theorem add_watchlist_idempotent_witness :
    add_watchlist witFetch 5 (add_watchlist witFetch 5 emptySession) =
      add_watchlist witFetch 5 emptySession ∧
    (add_watchlist witFetch 5
        (add_watchlist witFetch 5 emptySession)).watchlist_ids.count 5 = 1 ∧
    add_watchlist witFetch 9 ⟨[9], [watchlistEntryOf witMovie9]⟩ =
      ⟨[9], [watchlistEntryOf witMovie9]⟩ :=
  ⟨(add_watchlist_idempotent witFetch emptySession 5).2.1,
   ((add_watchlist_idempotent witFetch emptySession 5).2.2 witMovie5 rfl
      (by decide)).1,
   (add_watchlist_idempotent witFetch ⟨[9], [watchlistEntryOf witMovie9]⟩ 9).1
      (by decide)⟩

/-! ## Search pipeline (app.py lines 322-366, 877-884) -/

/-- Python whitespace, as stripped by str.strip(): space, tab, newline,
carriage return, vertical tab, form feed. -/
def isPyWs (c : Char) : Bool :=
  c == ' ' || c == Char.ofNat 9 || c == Char.ofNat 10 || c == Char.ofNat 13 ||
    c == Char.ofNat 11 || c == Char.ofNat 12

/-- Python str.strip() on a character list: drop whitespace from both ends. -/
def pyStripList (l : List Char) : List Char :=
  ((l.dropWhile isPyWs).reverse.dropWhile isPyWs).reverse

/-- Python str.strip() on a string. -/
def pyStrip (s : String) : String := String.mk (pyStripList s.data)

/-- Relevant fields of one upstream search or listing result. -/
structure SMovie where
  id : Nat
  title : String
  vote_average : Int
  release_date : String
deriving DecidableEq

/-- One outbound movie-search request: the query term plus the optional
year and language filter parameters appended to the URL. -/
structure SearchCall where
  query : String
  year : Option String
  lang : Option String
deriving DecidableEq

/-- refine_query_with_claude (app.py lines 128-135).  The parameter
claudeResp is the text-generation response to the refinement prompt; none
models an unavailable or failing client (app.py lines 107-122).  A falsy
(empty) reply, like an absent one, falls back to the original query. -/
def refine_query_with_claude (claudeResp : Option String) (query : String) :
    String :=
  match claudeResp with
  | none => query
  | some refined => if refined = "" then query else refined

/-- The first search URL the route builds (app.py lines 334-339): the
refined query, with the year and language parameters appended only when
non-blank. -/
def rawFirstCall (claudeResp : Option String) (query yearv langv : String) :
    SearchCall :=
  { query := refine_query_with_claude claudeResp query
    year := if yearv = "" then none else some yearv
    lang := if langv = "" then none else some langv }

/-- The fetch-and-fallback stage of the search route (app.py lines
332-347): search with the refined terms plus the year and language filters;
if that yields no results and the refined terms differ from the original
query, search once more with the original query and no filters, replacing
the result set.  Returns the issued calls and the final result set. -/
def search_fetch (searchFn : SearchCall → List SMovie)
    (claudeResp : Option String) (query yearv langv : String) :
    List SearchCall × List SMovie :=
  if searchFn (rawFirstCall claudeResp query yearv langv) = [] ∧
      refine_query_with_claude claudeResp query ≠ query then
    ([rawFirstCall claudeResp query yearv langv,
      { query := query, year := none, lang := none }],
     searchFn { query := query, year := none, lang := none })
  else
    ([rawFirstCall claudeResp query yearv langv],
     searchFn (rawFirstCall claudeResp query yearv langv))

/-- The client-side sort of search results (app.py lines 350-355): by vote
average descending, release date descending, or title ascending; any other
sort key leaves the upstream order. -/
def apply_sort (sort : String) (movies : List SMovie) : List SMovie :=
  if sort = "vote_average.desc" then
    movies.insertionSort (fun a b => b.vote_average ≤ a.vote_average)
  else if sort = "release_date.desc" then
    movies.insertionSort (fun a b => b.release_date ≤ a.release_date)
  else if sort = "title.asc" then
    movies.insertionSort (fun a b => a.title ≤ b.title)
  else movies

/-- Response of the HTML search route. -/
inductive SearchResponse where
  | redirectHome
  | page (movies : List SMovie) (query : String) (refined : String)
deriving DecidableEq

/-- Everything the HTML search route did: the refinement prompts sent to
the text-generation client (recorded by their query text), the upstream
search calls, and the response. -/
structure SearchOutcome where
  claude_calls : List String
  search_calls : List SearchCall
  response : SearchResponse
deriving DecidableEq

/-- The HTML search route (app.py lines 322-366).  Query parameters are
Option String (absent or present); each is stripped.  A blank query
redirects home before any call.  Otherwise one refinement prompt is issued,
the fetch-and-fallback stage runs, and the sorted results are rendered. -/
def search_route (claude : String → Option String)
    (searchFn : SearchCall → List SMovie)
    (q year lang sort : Option String) : SearchOutcome :=
  let query := pyStrip (q.getD "")
  let yearv := pyStrip (year.getD "")
  let langv := pyStrip (lang.getD "")
  let sortv := pyStrip (sort.getD "popularity.desc")
  if query = "" then
    { claude_calls := [], search_calls := [], response := .redirectHome }
  else
    let res := search_fetch searchFn (claude query) query yearv langv
    { claude_calls := [query]
      search_calls := res.1
      response := .page (apply_sort sortv res.2) query
        (refine_query_with_claude (claude query) query) }

/-- Response of the JSON search API. -/
inductive ApiSearchResponse where
  | err (status : Nat) (msg : String)
  | ok (query : String) (count : Nat) (results : List SMovie)
deriving DecidableEq

/-- The JSON search API (app.py lines 877-884): a blank query is a 400
error with no upstream call; otherwise one search call, no refinement, no
fallback. -/
def api_search (searchFn : SearchCall → List SMovie) (q : Option String) :
    List SearchCall × ApiSearchResponse :=
  let query := pyStrip (q.getD "")
  if query = "" then
    ([], .err 400 "No query provided")
  else
    let c : SearchCall := { query := query, year := none, lang := none }
    let movies := searchFn c
    ([c], .ok query movies.length movies)

/-- The first search call the route issues for given parameters: refined
query plus the stripped year and language filters. -/
def firstSearchCall (claude : String → Option String)
    (q year lang : Option String) : SearchCall :=
  rawFirstCall (claude (pyStrip (q.getD ""))) (pyStrip (q.getD ""))
    (pyStrip (year.getD "")) (pyStrip (lang.getD ""))

/-- The fallback search call: the original stripped query, no filters. -/
def fallbackCall (q : Option String) : SearchCall :=
  { query := pyStrip (q.getD ""), year := none, lang := none }

theorem search_fetch_pos (searchFn : SearchCall → List SMovie)
    (claudeResp : Option String) (query yearv langv : String)
    (h : searchFn (rawFirstCall claudeResp query yearv langv) = [] ∧
      refine_query_with_claude claudeResp query ≠ query) :
    search_fetch searchFn claudeResp query yearv langv =
      ([rawFirstCall claudeResp query yearv langv,
        { query := query, year := none, lang := none }],
       searchFn { query := query, year := none, lang := none }) := by
  unfold search_fetch
  rw [if_pos h]

theorem search_fetch_neg (searchFn : SearchCall → List SMovie)
    (claudeResp : Option String) (query yearv langv : String)
    (h : ¬(searchFn (rawFirstCall claudeResp query yearv langv) = [] ∧
      refine_query_with_claude claudeResp query ≠ query)) :
    search_fetch searchFn claudeResp query yearv langv =
      ([rawFirstCall claudeResp query yearv langv],
       searchFn (rawFirstCall claudeResp query yearv langv)) := by
  unfold search_fetch
  rw [if_neg h]

theorem search_route_nonblank (claude : String → Option String)
    (searchFn : SearchCall → List SMovie) (q year lang sort : Option String)
    (hq : pyStrip (q.getD "") ≠ "") :
    search_route claude searchFn q year lang sort =
      { claude_calls := [pyStrip (q.getD "")]
        search_calls := (search_fetch searchFn (claude (pyStrip (q.getD "")))
          (pyStrip (q.getD "")) (pyStrip (year.getD ""))
          (pyStrip (lang.getD ""))).1
        response := SearchResponse.page
          (apply_sort (pyStrip (sort.getD "popularity.desc"))
            ((search_fetch searchFn (claude (pyStrip (q.getD "")))
              (pyStrip (q.getD "")) (pyStrip (year.getD ""))
              (pyStrip (lang.getD ""))).2))
          (pyStrip (q.getD ""))
          (refine_query_with_claude (claude (pyStrip (q.getD "")))
            (pyStrip (q.getD ""))) } := by
  simp only [search_route]
  rw [if_neg hq]

/-- C3: for a non-empty search query, the pipeline first computes the
refined query (equal to the original when the text-generation client
returns absent), issues the search with the refined terms first, and when
that search is empty and the refined terms differ from the original query
it issues exactly one fallback search with the original query verbatim and
renders that result set; otherwise no fallback call is made and the first
result set is rendered. -/
theorem search_refined_then_single_fallback (claude : String → Option String)
    (searchFn : SearchCall → List SMovie) (q year lang sort : Option String)
    (hq : pyStrip (q.getD "") ≠ "") :
    (claude (pyStrip (q.getD "")) = none →
      (firstSearchCall claude q year lang).query = pyStrip (q.getD "")) ∧
    (search_route claude searchFn q year lang sort).search_calls.head? =
      some (firstSearchCall claude q year lang) ∧
    (if searchFn (firstSearchCall claude q year lang) = [] ∧
        (firstSearchCall claude q year lang).query ≠ pyStrip (q.getD "") then
      (search_route claude searchFn q year lang sort).search_calls =
        [firstSearchCall claude q year lang, fallbackCall q] ∧
      (search_route claude searchFn q year lang sort).response =
        SearchResponse.page
          (apply_sort (pyStrip (sort.getD "popularity.desc"))
            (searchFn (fallbackCall q)))
          (pyStrip (q.getD "")) (firstSearchCall claude q year lang).query
    else
      (search_route claude searchFn q year lang sort).search_calls =
        [firstSearchCall claude q year lang] ∧
      (search_route claude searchFn q year lang sort).response =
        SearchResponse.page
          (apply_sort (pyStrip (sort.getD "popularity.desc"))
            (searchFn (firstSearchCall claude q year lang)))
          (pyStrip (q.getD "")) (firstSearchCall claude q year lang).query) := by
  have hrefq : (firstSearchCall claude q year lang).query =
      refine_query_with_claude (claude (pyStrip (q.getD "")))
        (pyStrip (q.getD "")) := rfl
  have hroute := search_route_nonblank claude searchFn q year lang sort hq
  refine ⟨?_, ?_, ?_⟩
  · intro h
    rw [hrefq, h]
    rfl
  · rw [hroute]
    by_cases hc : searchFn (firstSearchCall claude q year lang) = [] ∧
        refine_query_with_claude (claude (pyStrip (q.getD "")))
          (pyStrip (q.getD "")) ≠ pyStrip (q.getD "")
    · rw [search_fetch_pos _ _ _ _ _ hc]
      rfl
    · rw [search_fetch_neg _ _ _ _ _ hc]
      rfl
  · rw [hrefq]
    by_cases hc : searchFn (firstSearchCall claude q year lang) = [] ∧
        refine_query_with_claude (claude (pyStrip (q.getD "")))
          (pyStrip (q.getD "")) ≠ pyStrip (q.getD "")
    · rw [if_pos hc, hroute, search_fetch_pos _ _ _ _ _ hc]
      exact ⟨rfl, rfl⟩
    · rw [if_neg hc, hroute, search_fetch_neg _ _ _ _ _ hc]
      exact ⟨rfl, rfl⟩

/-- A concrete text-generation oracle refining every query to a fixed pair
of keywords. -/
def witClaude : String → Option String := fun _ => some "alpha beta"

/-- A concrete search oracle that finds nothing for the refined keywords
and one movie for anything else. -/
def witSearchFn : SearchCall → List SMovie := fun c =>
  if c.query = "alpha beta" then [] else [⟨3, "Gamma", 5, "2010-01-01"⟩]

/-- C3 witness: a concrete query that triggers the fallback path. -/
theorem search_refined_then_single_fallback_witness :
    (search_route witClaude witSearchFn (some " the gamma movie ") none none
      none).search_calls.head? =
      some (firstSearchCall witClaude (some " the gamma movie ") none none) :=
  (search_refined_then_single_fallback witClaude witSearchFn
    (some " the gamma movie ") none none none (by decide)).2.1

/-- C10: a search request whose query parameter is absent, empty, or
whitespace-only redirects to the home page before issuing any upstream or
text-generation call, whereas the JSON search API answers the same blank
query with a 400 error body and likewise no upstream call. -/
theorem blank_query_redirects_home (claude : String → Option String)
    (searchFn : SearchCall → List SMovie) (q year lang sort : Option String)
    (hq : ∀ c ∈ (q.getD "").data, isPyWs c = true) :
    search_route claude searchFn q year lang sort =
      { claude_calls := [], search_calls := [],
        response := SearchResponse.redirectHome } ∧
    api_search searchFn q = ([], ApiSearchResponse.err 400 "No query provided") := by
  have hblank : pyStrip (q.getD "") = "" := by
    unfold pyStrip pyStripList
    rw [List.dropWhile_eq_nil_iff.mpr hq]
    rfl
  constructor
  · simp only [search_route]
    rw [if_pos hblank]
  · simp only [api_search]
    rw [if_pos hblank]

/-- C10 witness: a whitespace-only query parameter. -/
theorem blank_query_redirects_home_witness :
    search_route witClaude witSearchFn (some "   ") none none none =
      { claude_calls := [], search_calls := [],
        response := SearchResponse.redirectHome } ∧
    api_search witSearchFn (some "   ") =
      ([], ApiSearchResponse.err 400 "No query provided") :=
  blank_query_redirects_home witClaude witSearchFn (some "   ") none none none
    (by decide)

/-! ## Listing routes (app.py lines 372-400, 561-588, 594-615, 621-711,
717-742, 964-973) -/

/-- One upstream listing page: the results list and the total_pages field
(absent when the upstream response lacked it; callers default it to 1). -/
structure UpstreamPage where
  results : List SMovie
  total_pages : Option Nat
deriving DecidableEq

/-- Python truthiness of `LANGUAGES.get(name)`: falsy when the key is
absent (None) or when the looked-up value is the empty string. -/
def pyFalsyStr (o : Option String) : Bool := (o.getD "") == ""

/-- The discover query the genre page issues. -/
structure GenreQuery where
  genre_id : Nat
  sort_by : String
  page : Nat
deriving DecidableEq

/-- Response of a paginated listing route. -/
inductive ListingResponse where
  | redirectHome
  | page (movies : List SMovie) (current_page : Nat) (total_pages : Nat)
deriving DecidableEq

/-- The genre page (app.py lines 372-400): unknown (or falsy) genre name
redirects home with no upstream call; otherwise one discover call, with
total pages capped at 10. -/
def genre_route (fetch : GenreQuery → UpstreamPage) (genre_name : String)
    (page : Nat) (sort : String) : List GenreQuery × ListingResponse :=
  if pyFalsyNat (List.lookup genre_name GENRES) then
    ([], .redirectHome)
  else
    let qy : GenreQuery := ⟨(List.lookup genre_name GENRES).getD 0, sort, page⟩
    let data := fetch qy
    ([qy], .page data.results page (min (data.total_pages.getD 1) 10))

/-- The discover query the language page issues. -/
structure LangQuery where
  lang_code : String
deriving DecidableEq

/-- Response of an unpaginated listing route. -/
inductive SimpleListingResponse where
  | redirectHome
  | page (movies : List SMovie)
deriving DecidableEq

/-- The language page (app.py lines 594-615): unknown (or falsy) language
name redirects home with no upstream call. -/
def language_movies (fetch : LangQuery → UpstreamPage) (lang_name : String) :
    List LangQuery × SimpleListingResponse :=
  if pyFalsyStr (List.lookup lang_name LANGUAGES) then
    ([], .redirectHome)
  else
    let qy : LangQuery := ⟨(List.lookup lang_name LANGUAGES).getD ""⟩
    ([qy], .page (fetch qy).results)

/-- The primary-release-date range filter of a decade discover call. -/
structure DateRangeQuery where
  gte : String
  lte : String
deriving DecidableEq

/-- The valid decades (app.py line 720). -/
def valid_decades : List Nat := [1950, 1960, 1970, 1980, 1990, 2000, 2010, 2020]

/-- The decade page (app.py lines 717-742): an invalid decade redirects
home with no upstream call; a valid decade issues one discover call whose
date range runs from decade-01-01 to (decade+9)-12-31. -/
def decade_movies (fetch : DateRangeQuery → UpstreamPage) (decade : Nat) :
    List DateRangeQuery × SimpleListingResponse :=
  if decade ∈ valid_decades then
    let qy : DateRangeQuery :=
      ⟨toString decade ++ "-01-01", toString (decade + 9) ++ "-12-31"⟩
    ([qy], .page (fetch qy).results)
  else
    ([], .redirectHome)

/-- The with_genres filter of a mood discover call: the pipe-joined genre
id string. -/
structure MoodQuery where
  with_genres : String
deriving DecidableEq

/-- Response of the mood page. -/
inductive MoodResponse where
  | redirectHome
  | page (movies : List SMovie) (mood : String) (message : Option String)
deriving DecidableEq

/-- Python str.lower(), modelled structurally: lower-case every character
(the mood names are plain ASCII). -/
def pyLower (s : String) : String := String.mk (s.data.map Char.toLower)

/-- The pipe-joined genre id string the mood page derives from a mood name
(app.py lines 564-567): lower-case the mood, look it up in MOOD_GENRES
falling back to the single genre Action, keep the names present in GENRES,
map them to their ids, join with a pipe. -/
def mood_genre_str (mood_name : String) : String :=
  String.intercalate "|"
    ((((List.lookup (pyLower mood_name) MOOD_GENRES).getD ["Action"]).filter
        (fun g => (List.lookup g GENRES).isSome)).map
      (fun g => toString ((List.lookup g GENRES).getD 0)))

/-- The mood page (app.py lines 561-588): one discover call filtered by the
derived genre id string; the result list is shuffled, truncated to 12, and
a mood message is requested from the text-generation client (the oracle
moodMsg, absent tolerated).  Note there is no unknown-mood redirect: an
unknown mood falls back to the Action genre list. -/
def mood_movies (fetch : MoodQuery → List SMovie)
    (shuffle : List SMovie → List SMovie)
    (moodMsg : String → List SMovie → Option String)
    (mood_name : String) : List MoodQuery × MoodResponse :=
  let qy : MoodQuery := ⟨mood_genre_str mood_name⟩
  let movies := (shuffle (fetch qy)).take 12
  ([qy], .page movies (pyLower mood_name) (moodMsg (pyLower mood_name) movies))

/-- Result of a paginated fixed listing (top-rated, popular, now-playing,
upcoming). -/
structure PagedResult where
  movies : List SMovie
  current_page : Nat
  total_pages : Nat
deriving DecidableEq

/-- The top-rated page (app.py lines 621-639): total pages capped at 10. -/
def top_rated (fetch : Nat → UpstreamPage) (page : Nat) : PagedResult :=
  ⟨(fetch page).results, page, min ((fetch page).total_pages.getD 1) 10⟩

/-- The now-playing page (app.py lines 645-663): total pages capped at 5. -/
def now_playing (fetch : Nat → UpstreamPage) (page : Nat) : PagedResult :=
  ⟨(fetch page).results, page, min ((fetch page).total_pages.getD 1) 5⟩

/-- The upcoming page (app.py lines 669-687): total pages capped at 5. -/
def upcoming (fetch : Nat → UpstreamPage) (page : Nat) : PagedResult :=
  ⟨(fetch page).results, page, min ((fetch page).total_pages.getD 1) 5⟩

/-- The popular page (app.py lines 693-711): total pages capped at 10. -/
def popular (fetch : Nat → UpstreamPage) (page : Nat) : PagedResult :=
  ⟨(fetch page).results, page, min ((fetch page).total_pages.getD 1) 10⟩

/-- The discover query of the JSON genre API. -/
structure ApiGenreQuery where
  genre_id : Nat
deriving DecidableEq

/-- Response of the JSON genre API. -/
inductive ApiGenreResponse where
  | err (status : Nat) (msg : String)
  | ok (genre : String) (count : Nat) (results : List SMovie)
deriving DecidableEq

/-- The JSON genre API (app.py lines 964-973): unknown (or falsy) genre
name answers 404 with a JSON error body and no upstream call. -/
def api_genre (fetch : ApiGenreQuery → List SMovie) (genre_name : String) :
    List ApiGenreQuery × ApiGenreResponse :=
  if pyFalsyNat (List.lookup genre_name GENRES) then
    ([], .err 404 "Genre not found")
  else
    let qy : ApiGenreQuery := ⟨(List.lookup genre_name GENRES).getD 0⟩
    let movies := fetch qy
    ([qy], .ok genre_name movies.length movies)

/-! ## Movie detail video selection (app.py lines 423-433) -/

/-- One entry of the videos call: its type, hosting site, and key. -/
structure Video where
  type : String
  site : String
  key : String
deriving DecidableEq

/-- Trailer selection: the first video whose type is Trailer and whose site
is YouTube (app.py lines 423-426). -/
def trailer (videos : List Video) : Option Video :=
  videos.find? (fun v => v.type == "Trailer" && v.site == "YouTube")

/-- Teaser selection: only when no trailer was found, the first video whose
type is Teaser and whose site is YouTube (app.py lines 427-432). -/
def teaser (videos : List Video) : Option Video :=
  match trailer videos with
  | some _ => none
  | none => videos.find? (fun v => v.type == "Teaser" && v.site == "YouTube")

/-- Clip list: all YouTube-hosted videos, capped at 5 (app.py line 433). -/
def clips (videos : List Video) : List Video :=
  (videos.filter (fun v => v.site == "YouTube")).take 5

/-! ## Concrete oracles for the listing and detail claims -/

/-- A concrete mood discover oracle returning one movie. -/
def witMoodFetch : MoodQuery → List SMovie := fun _ => [⟨1, "A", 5, "2000-01-01"⟩]

/-- A concrete mood-message oracle modelling an unavailable client. -/
def witMoodMsg : String → List SMovie → Option String := fun _ _ => none

/-- A concrete genre discover oracle reporting 50 total pages. -/
def witGenreFetch : GenreQuery → UpstreamPage := fun _ => ⟨[], some 50⟩

/-- A concrete language discover oracle. -/
def witLangFetch : LangQuery → UpstreamPage := fun _ => ⟨[], none⟩

/-- A concrete decade discover oracle. -/
def witDateFetch : DateRangeQuery → UpstreamPage :=
  fun _ => ⟨[⟨2, "B", 6, "1995-06-06"⟩], some 3⟩

/-- A concrete paginated listing oracle reporting 50 total pages. -/
def witPagedFetch : Nat → UpstreamPage := fun _ => ⟨[], some 50⟩

/-- A concrete JSON genre API oracle. -/
def witApiGenreFetch : ApiGenreQuery → List SMovie :=
  fun _ => [⟨7, "D", 8, "2012-12-12"⟩]

/-- C2 counterexample: for the unknown mood name confused, the mood route
does not redirect home; it falls back to the Action genre list, issues an
upstream discover call filtered to genre id 28, and renders a page. -/
theorem unknown_mood_no_redirect_counterexample :
    (mood_movies witMoodFetch id witMoodMsg "confused").1 ≠ [] ∧
    (mood_movies witMoodFetch id witMoodMsg "confused").2 ≠
      MoodResponse.redirectHome := by
  constructor <;> decide

/-- C2 amended: unknown genre, language, and decade identifiers redirect to
home with no upstream call, but an unknown mood name does not redirect: the
mood route substitutes the genre list [Action], issues one upstream
discover call with genre id 28, and renders a page. -/
theorem unknown_identifier_handling (gfetch : GenreQuery → UpstreamPage)
    (lfetch : LangQuery → UpstreamPage) (dfetch : DateRangeQuery → UpstreamPage)
    (mfetch : MoodQuery → List SMovie) (shuffle : List SMovie → List SMovie)
    (moodMsg : String → List SMovie → Option String)
    (gname lname mname sort : String) (decade page : Nat)
    (hg : List.lookup gname GENRES = none)
    (hl : List.lookup lname LANGUAGES = none)
    (hd : decade ∉ valid_decades)
    (hm : List.lookup (pyLower mname) MOOD_GENRES = none) :
    genre_route gfetch gname page sort = ([], ListingResponse.redirectHome) ∧
    language_movies lfetch lname = ([], SimpleListingResponse.redirectHome) ∧
    decade_movies dfetch decade = ([], SimpleListingResponse.redirectHome) ∧
    (mood_movies mfetch shuffle moodMsg mname).1 = [⟨"28"⟩] ∧
    (mood_movies mfetch shuffle moodMsg mname).2 =
      MoodResponse.page ((shuffle (mfetch ⟨"28"⟩)).take 12) (pyLower mname)
        (moodMsg (pyLower mname) ((shuffle (mfetch ⟨"28"⟩)).take 12)) := by
  have hstr : mood_genre_str mname = "28" := by
    unfold mood_genre_str
    rw [hm]
    rfl
  refine ⟨?_, ?_, ?_, ?_, ?_⟩
  · unfold genre_route
    rw [hg]
    rfl
  · unfold language_movies
    rw [hl]
    rfl
  · unfold decade_movies
    rw [if_neg hd]
  · simp only [mood_movies]
    rw [hstr]
  · simp only [mood_movies]
    rw [hstr]

/-- C2 witness: concrete unknown identifiers for all four route families. -/
theorem unknown_identifier_handling_witness :
    genre_route witGenreFetch "NotARealGenre" 1 "popularity.desc" =
      ([], ListingResponse.redirectHome) ∧
    language_movies witLangFetch "Klingon" =
      ([], SimpleListingResponse.redirectHome) ∧
    decade_movies witDateFetch 1955 = ([], SimpleListingResponse.redirectHome) ∧
    (mood_movies witMoodFetch id witMoodMsg "Confused").1 = [⟨"28"⟩] :=
  ⟨(unknown_identifier_handling witGenreFetch witLangFetch witDateFetch
      witMoodFetch id witMoodMsg "NotARealGenre" "Klingon" "Confused"
      "popularity.desc" 1955 1 (by decide) (by decide) (by decide)
      (by decide)).1,
   (unknown_identifier_handling witGenreFetch witLangFetch witDateFetch
      witMoodFetch id witMoodMsg "NotARealGenre" "Klingon" "Confused"
      "popularity.desc" 1955 1 (by decide) (by decide) (by decide)
      (by decide)).2.1,
   (unknown_identifier_handling witGenreFetch witLangFetch witDateFetch
      witMoodFetch id witMoodMsg "NotARealGenre" "Klingon" "Confused"
      "popularity.desc" 1955 1 (by decide) (by decide) (by decide)
      (by decide)).2.2.1,
   (unknown_identifier_handling witGenreFetch witLangFetch witDateFetch
      witMoodFetch id witMoodMsg "NotARealGenre" "Klingon" "Confused"
      "popularity.desc" 1955 1 (by decide) (by decide) (by decide)
      (by decide)).2.2.2.1⟩

/-- C5: the total pages the listing routes report is min(upstream total
pages defaulted to 1, ceiling), hence at most 10 for top-rated, popular and
genre listings and at most 5 for now-playing and upcoming, for every
requested page and every upstream report. -/
theorem listing_total_pages_capped (gfetch : GenreQuery → UpstreamPage)
    (fetchp : Nat → UpstreamPage) (page : Nat) (gname sort : String) :
    ((top_rated fetchp page).total_pages =
        min ((fetchp page).total_pages.getD 1) 10 ∧
      (top_rated fetchp page).total_pages ≤ 10) ∧
    ((popular fetchp page).total_pages =
        min ((fetchp page).total_pages.getD 1) 10 ∧
      (popular fetchp page).total_pages ≤ 10) ∧
    ((now_playing fetchp page).total_pages =
        min ((fetchp page).total_pages.getD 1) 5 ∧
      (now_playing fetchp page).total_pages ≤ 5) ∧
    ((upcoming fetchp page).total_pages =
        min ((fetchp page).total_pages.getD 1) 5 ∧
      (upcoming fetchp page).total_pages ≤ 5) ∧
    (∀ movies cp tp, (genre_route gfetch gname page sort).2 =
        ListingResponse.page movies cp tp →
      tp = min ((gfetch ⟨(List.lookup gname GENRES).getD 0, sort,
        page⟩).total_pages.getD 1) 10 ∧ tp ≤ 10) := by
  refine ⟨⟨rfl, Nat.min_le_right _ _⟩, ⟨rfl, Nat.min_le_right _ _⟩,
    ⟨rfl, Nat.min_le_right _ _⟩, ⟨rfl, Nat.min_le_right _ _⟩, ?_⟩
  intro movies cp tp h
  unfold genre_route at h
  split at h
  · exact ListingResponse.noConfusion h
  · injection h with h1 h2 h3
    rw [← h3]
    exact ⟨rfl, Nat.min_le_right _ _⟩

/-- C5 witness: page 50 with upstream reporting 50 pages. -/
theorem listing_total_pages_capped_witness :
    (10 : Nat) = min ((witGenreFetch ⟨28, "popularity.desc",
      50⟩).total_pages.getD 1) 10 ∧ (10 : Nat) ≤ 10 :=
  (listing_total_pages_capped witGenreFetch witPagedFetch 50 "Action"
    "popularity.desc").2.2.2.2 [] 50 10 (by decide)

/-- C6: for every valid decade the decade route issues exactly one discover
call whose date range runs from decade-01-01 to (decade+9)-12-31; in
particular 1990 yields 1990-01-01 to 1999-12-31. -/
theorem decade_route_builds_exact_range (fetch : DateRangeQuery → UpstreamPage) :
    (∀ d ∈ valid_decades, (decade_movies fetch d).1 =
        [⟨toString d ++ "-01-01", toString (d + 9) ++ "-12-31"⟩]) ∧
    (decade_movies fetch 1990).1 = [⟨"1990-01-01", "1999-12-31"⟩] := by
  constructor
  · intro d hd
    unfold decade_movies
    rw [if_pos hd]
  · rfl

/-- C6 witness: the 1970 decade. -/
theorem decade_route_builds_exact_range_witness :
    (decade_movies witDateFetch 1970).1 = [⟨"1970-01-01", "1979-12-31"⟩] :=
  (decade_route_builds_exact_range witDateFetch).1 1970 (by decide)

/-- C7: whatever page the mood route renders holds at most 12 movies, and
every one of them came from the upstream result set of the single discover
call, for every shuffle that permutes its input. -/
theorem mood_list_short_and_from_upstream (fetch : MoodQuery → List SMovie)
    (shuffle : List SMovie → List SMovie)
    (moodMsg : String → List SMovie → Option String) (mood_name : String)
    (hshuffle : ∀ l, List.Perm (shuffle l) l) :
    ∀ movies mood msg,
      (mood_movies fetch shuffle moodMsg mood_name).2 =
        MoodResponse.page movies mood msg →
      movies.length ≤ 12 ∧
      ∀ m ∈ movies, m ∈ fetch ⟨mood_genre_str mood_name⟩ := by
  intro movies mood msg h
  simp only [mood_movies] at h
  injection h with h1 h2 h3
  subst h1
  constructor
  · rw [List.length_take]
    exact Nat.min_le_left _ _
  · intro m hm
    exact ((hshuffle _).mem_iff).mp (List.take_subset _ _ hm)

/-- C7 witness: the identity shuffle on a one-movie upstream set. -/
theorem mood_list_short_and_from_upstream_witness :
    ([⟨1, "A", 5, "2000-01-01"⟩] : List SMovie).length ≤ 12 :=
  (mood_list_short_and_from_upstream witMoodFetch id witMoodMsg "happy"
    (fun l => List.Perm.refl l) [⟨1, "A", 5, "2000-01-01"⟩] "happy" none
    (by decide)).1

theorem find?_first_aux {α : Type} (p : α → Bool) :
    ∀ (l : List α) (v : α), l.find? p = some v →
      ∃ pre post, l = pre ++ v :: post ∧ ∀ w ∈ pre, p w = false := by
  intro l
  induction l with
  | nil => intro v h; cases h
  | cons a t ih =>
      intro v h
      by_cases hpa : p a = true
      · rw [List.find?_cons_of_pos _ hpa] at h
        injection h with h
        subst h
        exact ⟨[], t, rfl, by simp⟩
      · rw [List.find?_cons_of_neg _ (by simpa using hpa)] at h
        obtain ⟨pre, post, heq, hpre⟩ := ih v h
        refine ⟨a :: pre, post, by rw [heq]; rfl, ?_⟩
        intro w hw
        rcases List.mem_cons.mp hw with h1 | h2
        · subst h1; simpa using hpa
        · exact hpre w h2

/-- C8: the selected trailer is the first YouTube-hosted video of type
Trailer, and one is selected whenever one exists; a teaser is selected only
when no such trailer exists, is then the first YouTube-hosted video of type
Teaser, and is selected whenever no trailer exists but such a teaser does;
the clip list consists of all YouTube-hosted videos of the input capped at
5: it is an order-preserving selection from the input holding only
YouTube-hosted videos, its length is the number of YouTube-hosted videos
capped at 5, and when at most 5 exist every one of them is in it. -/
theorem trailer_teaser_clip_selection (videos : List Video) :
    (∀ v, trailer videos = some v →
      v.type = "Trailer" ∧ v.site = "YouTube" ∧
      ∃ pre post, videos = pre ++ v :: post ∧
        ∀ w ∈ pre, ¬(w.type = "Trailer" ∧ w.site = "YouTube")) ∧
    (trailer videos = none →
      ∀ w ∈ videos, ¬(w.type = "Trailer" ∧ w.site = "YouTube")) ∧
    (∀ v, teaser videos = some v →
      trailer videos = none ∧ v.type = "Teaser" ∧ v.site = "YouTube" ∧
      ∃ pre post, videos = pre ++ v :: post ∧
        ∀ w ∈ pre, ¬(w.type = "Teaser" ∧ w.site = "YouTube")) ∧
    (∀ v, trailer videos = some v → teaser videos = none) ∧
    (trailer videos = none → teaser videos = none →
      ∀ w ∈ videos, ¬(w.type = "Teaser" ∧ w.site = "YouTube")) ∧
    ((clips videos).length =
        min 5 (videos.countP (fun v => v.site == "YouTube")) ∧
      (clips videos).Sublist videos ∧
      (∀ v ∈ clips videos, v ∈ videos ∧ v.site = "YouTube") ∧
      (videos.countP (fun v => v.site == "YouTube") ≤ 5 →
        ∀ v ∈ videos, v.site = "YouTube" → v ∈ clips videos)) := by
  refine ⟨?_, ?_, ?_, ?_, ?_, ?_, ?_, ?_, ?_⟩
  · intro v h
    have hps := List.find?_some h
    simp only [Bool.and_eq_true, beq_iff_eq] at hps
    obtain ⟨pre, post, heq, hpre⟩ := find?_first_aux _ videos v h
    refine ⟨hps.1, hps.2, pre, post, heq, ?_⟩
    intro w hw hc
    have hf := hpre w hw
    simp [hc.1, hc.2] at hf
  · intro h w hw hc
    have := List.find?_eq_none.mp h w hw
    simp [hc.1, hc.2] at this
  · intro v h
    unfold teaser at h
    cases htr : trailer videos with
    | some u => rw [htr] at h; cases h
    | none =>
        rw [htr] at h
        have hps := List.find?_some h
        simp only [Bool.and_eq_true, beq_iff_eq] at hps
        obtain ⟨pre, post, heq, hpre⟩ := find?_first_aux _ videos v h
        refine ⟨rfl, hps.1, hps.2, pre, post, heq, ?_⟩
        intro w hw hc
        have hf := hpre w hw
        simp [hc.1, hc.2] at hf
  · intro v h
    unfold teaser
    rw [h]
  · intro htr hte w hw hc
    unfold teaser at hte
    rw [htr] at hte
    have := List.find?_eq_none.mp hte w hw
    simp [hc.1, hc.2] at this
  · rw [clips, List.length_take, List.countP_eq_length_filter]
  · exact (List.take_sublist _ _).trans (List.filter_sublist _)
  · intro v hv
    have hv' := List.take_subset _ _ hv
    have := List.mem_filter.mp hv'
    exact ⟨this.1, by simpa using this.2⟩
  · intro hcount v hv hsite
    have hlen : (videos.filter (fun v => v.site == "YouTube")).length ≤ 5 := by
      rw [← List.countP_eq_length_filter]
      exact hcount
    unfold clips
    rw [List.take_of_length_le hlen]
    exact List.mem_filter.mpr ⟨hv, by simp [hsite]⟩

/-- A concrete video list: a YouTube teaser, a non-YouTube trailer, a
YouTube trailer, and a YouTube clip. -/
def witVideos : List Video :=
  [⟨"Teaser", "YouTube", "t1"⟩, ⟨"Trailer", "Vimeo", "v1"⟩,
   ⟨"Trailer", "YouTube", "abc"⟩, ⟨"Clip", "YouTube", "c1"⟩]

/-- C8 witness: the concrete list selects the YouTube trailer and hence no
teaser, and the YouTube clip is in its clip list (three YouTube-hosted
videos, under the cap). -/
theorem trailer_teaser_clip_selection_witness :
    teaser witVideos = none ∧
    Video.mk "Clip" "YouTube" "c1" ∈ clips witVideos :=
  ⟨(trailer_teaser_clip_selection witVideos).2.2.2.1
     ⟨"Trailer", "YouTube", "abc"⟩ (by decide),
   (trailer_teaser_clip_selection witVideos).2.2.2.2.2.2.2.2 (by decide)
     ⟨"Clip", "YouTube", "c1"⟩ (by decide) (by decide)⟩

/-- C9: for a genre name absent from the genre table, the JSON genre API
answers 404 with the JSON error body Genre not found and issues no upstream
call. -/
theorem api_genre_unknown_is_404 (fetch : ApiGenreQuery → List SMovie)
    (genre_name : String) (h : List.lookup genre_name GENRES = none) :
    api_genre fetch genre_name =
      ([], ApiGenreResponse.err 404 "Genre not found") := by
  unfold api_genre
  rw [h]
  rfl

/-- C9 witness: the genre name NotARealGenre from the spec scenario. -/
theorem api_genre_unknown_is_404_witness :
    api_genre witApiGenreFetch "NotARealGenre" =
      ([], ApiGenreResponse.err 404 "Genre not found") :=
  api_genre_unknown_is_404 witApiGenreFetch "NotARealGenre" (by decide)

end MovieSite
